import Mathlib

/-!
Tubely video pipeline: upload handler, aspect-ratio classifier, signing service.

A shallow embedding of `handler_upload_video.go` and `signVideo.go`.

Conventions of the embedding

* Go strings are Lean `String`s (sequences of Unicode code points).
* A `float64` taken from the probe output is finite; it is given by the exact
  rational it denotes.  Float64 expressions are values of `F64`: every operation
  rounds its exact result to binary64 (`F64.round`), and the two infinities and
  NaN are values of their own.
* Everything outside the process (JWT validation, record store, multipart parser,
  file system, `ffmpeg`, `ffprobe`, the object store) is an oracle field of `Env`;
  the handler is a function of `Env` returning the response, the ordered list of
  effects and the files left on disk.
-/

namespace Tubely

/-! ## float64 arithmetic -/

/-- Value of a float64 expression: a finite number, a signed infinity, or NaN. -/
inductive F64 where
  | fin (q : ℚ)
  | inf (neg : Bool)
  | nan
deriving DecidableEq

/-- Nearest integer, ties to the even one. -/
def roundHalfEven (m : ℚ) : ℤ :=
  let f := ⌊m⌋
  if m - f < 1 / 2 then f
  else if 1 / 2 < m - f then f + 1
  else if f % 2 = 0 then f else f + 1

/-- IEEE-754 binary64 rounding (nearest, ties to even) of an exact value: 53
significant bits, least exponent -1022 (below it the spacing stays 2^-1074), and
overflow to an infinity when the rounded magnitude reaches 2^1024. -/
def F64.round (q : ℚ) : F64 :=
  if q = 0 then F64.fin 0
  else
    let e := max (Int.log 2 |q|) (-1022)
    let ulp : ℚ := 2 ^ (e - 52)
    let r : ℚ := roundHalfEven (|q| / ulp) * ulp
    if (2 : ℚ) ^ (1024 : ℕ) ≤ r then F64.inf (decide (q < 0))
    else F64.fin (if q < 0 then -r else r)

/-- Go `width / height` on finite float64 operands: the correctly rounded quotient.
A zero divisor gives NaN for `0/0` and an infinity otherwise (the sign of the
infinity never matters below). -/
def F64.quot (width height : ℚ) : F64 :=
  if height = 0 then
    if width = 0 then F64.nan else F64.inf (decide (width < 0))
  else F64.round (width / height)

/-- Go `x - y` on float64. -/
def F64.sub : F64 → F64 → F64
  | F64.fin a, F64.fin b => F64.round (a - b)
  | F64.fin _, F64.inf neg => F64.inf (!neg)
  | F64.inf neg, F64.fin _ => F64.inf neg
  | F64.inf n1, F64.inf n2 => if n1 = n2 then F64.nan else F64.inf n1
  | F64.nan, _ => F64.nan
  | _, F64.nan => F64.nan

/-- Go `math.Abs`. -/
def F64.abs : F64 → F64
  | F64.fin q => F64.fin |q|
  | F64.inf _ => F64.inf false
  | F64.nan => F64.nan

/-- Go `x < y` on float64; every comparison with NaN is false. -/
def F64.lt : F64 → F64 → Bool
  | F64.fin a, F64.fin b => decide (a < b)
  | F64.fin _, F64.inf neg => !neg
  | F64.inf neg, F64.fin _ => neg
  | F64.inf n1, F64.inf n2 => n1 && !n2
  | F64.nan, _ => false
  | _, F64.nan => false

/-! ## Probe output (`encoding/json` values) -/

/-- A value produced by `json.Unmarshal` into `interface{}`; a number carries the
float64 the decoder produced. -/
inductive JSON where
  | null
  | bool (b : Bool)
  | num (x : ℚ)
  | str (s : String)
  | arr (xs : List JSON)
  | obj (kvs : List (String × JSON))

/-- Map index `m[k]` on `map[string]interface{}`; a missing key is the nil interface. -/
def JSON.index (m : List (String × JSON)) (k : String) : JSON :=
  match m.lookup k with
  | some v => v
  | none => JSON.null

/-- Type assertion `v.([]interface{})`. -/
def JSON.asArr : JSON → Option (List JSON)
  | JSON.arr xs => some xs
  | _ => none

/-- Type assertion `v.(map[string]interface{})`. -/
def JSON.asObj : JSON → Option (List (String × JSON))
  | JSON.obj kvs => some kvs
  | _ => none

/-- Type assertion `v.(float64)`. -/
def JSON.asFloat : JSON → Option ℚ
  | JSON.num x => some x
  | _ => none

/-- What running `ffprobe` and unmarshalling its stdout gave. -/
inductive ProbeOutput where
  | runFailed
  | badJSON
  | parsed (jsonData : List (String × JSON))

/-- The `fmt.Errorf` values of `getVideoAspectRatio`. -/
inductive ProbeError where
  | errorRunningFfprobe
  | errorParsingJSON
  | noStreamsFound
  | invalidStreamData
  | couldNotGetDimensions
deriving DecidableEq, Repr

/-- The untyped constant `tolerance` of `getVideoAspectRatio`; it is rounded to
float64 where it is compared. -/
def tolerance : ℚ := 1 / 10

/-- Lines 53-62 of `getVideoAspectRatio`: the classification of the probed
dimensions, in float64 arithmetic.  The constant expressions `16.0/9.0` and
`9.0/16.0` are exact and are rounded to float64 where they are used.  It has no
error return. -/
def classifyDimensions (width height : ℚ) : String :=
  let ratio := F64.quot width height
  if ((ratio.sub (F64.round (16 / 9))).abs).lt (F64.round tolerance) then "16:9"
  else if ((ratio.sub (F64.round (9 / 16))).abs).lt (F64.round tolerance) then "9:16"
  else "other"

/-- Go `getVideoAspectRatio`, with the subprocess and the JSON decoder as the
oracle `out`. -/
def getVideoAspectRatio (out : ProbeOutput) : Except ProbeError String :=
  match out with
  | ProbeOutput.runFailed => Except.error ProbeError.errorRunningFfprobe
  | ProbeOutput.badJSON => Except.error ProbeError.errorParsingJSON
  | ProbeOutput.parsed jsonData =>
    match (JSON.index jsonData "streams").asArr with
    | none => Except.error ProbeError.noStreamsFound
    | some [] => Except.error ProbeError.noStreamsFound
    | some (s0 :: _) =>
      match s0.asObj with
      | none => Except.error ProbeError.invalidStreamData
      | some stream =>
        match (JSON.index stream "width").asFloat, (JSON.index stream "height").asFloat with
        | some width, some height => Except.ok (classifyDimensions width height)
        | _, _ => Except.error ProbeError.couldNotGetDimensions

/-- The probe output of a file whose first stream has the given dimensions. -/
def probeOf (width height : ℚ) : ProbeOutput :=
  ProbeOutput.parsed
    [("streams", JSON.arr [JSON.obj [("width", JSON.num width), ("height", JSON.num height)]])]

/-- The classification with the two tolerance checks in the opposite order. -/
def classifyDimensionsSwapped (width height : ℚ) : String :=
  let ratio := F64.quot width height
  if ((ratio.sub (F64.round (9 / 16))).abs).lt (F64.round tolerance) then "9:16"
  else if ((ratio.sub (F64.round (16 / 9))).abs).lt (F64.round tolerance) then "16:9"
  else "other"

/-- Reference classifier, following the specification's words: landscape when
`|width/height - 16/9| < 0.1`, otherwise portrait when `|width/height - 9/16| < 0.1`,
otherwise other. -/
def classifierSpec (width height : ℚ) : String :=
  if |width / height - 16 / 9| < 1 / 10 then "16:9"
  else if |width / height - 9 / 16| < 1 / 10 then "9:16"
  else "other"

/-- Lines 168-176 of `handlerUploadVideo`: the `switch` on the aspect ratio. -/
def keyPrefixOf (aspectRatio : String) : String :=
  if aspectRatio = "16:9" then "landscape/"
  else if aspectRatio = "9:16" then "portrait/"
  else "other/"

/-- Line 178 of `handlerUploadVideo`: the object key for a fresh identifier. -/
def s3keyOf (aspectRatio : String) (id : String) : String :=
  keyPrefixOf aspectRatio ++ (id ++ ".mp4")

/-! ## Signing service (`signVideo.go`) -/

/-- The fields of `database.Video` that the two files read or write. -/
structure Video where
  ID : String
  UserID : String
  ThumbnailURL : Option String
  VideoURL : Option String
deriving DecidableEq, Repr

/-- Go `unicode.IsSpace`. -/
def isSpace (c : Char) : Bool :=
  let r := c.toNat
  if r ≤ 0xFF then
    r == 0x09 || r == 0x0A || r == 0x0B || r == 0x0C || r == 0x0D || r == 0x20
      || r == 0x85 || r == 0xA0
  else
    r == 0x1680 || (0x2000 ≤ r && r ≤ 0x200A) || r == 0x2028 || r == 0x2029
      || r == 0x202F || r == 0x205F || r == 0x3000

/-- Go `strings.TrimSpace`: drop the leading and the trailing white space. -/
def TrimSpace (s : String) : String :=
  String.mk ((s.data.dropWhile isSpace).rdropWhile isSpace)

/-- The pieces of a character list between the occurrences of `sep`. -/
def splitChars (sep : Char) : List Char → List (List Char)
  | [] => [[]]
  | c :: cs =>
    if c = sep then [] :: splitChars sep cs
    else
      match splitChars sep cs with
      | [] => [[c]]
      | p :: ps => (c :: p) :: ps

/-- Go `strings.Split(s, sep)` for a one-character separator. -/
def Split (s : String) (sep : Char) : List String :=
  (splitChars sep s.data).map String.mk

/-- Go `time.Minute`, in nanoseconds (`time.Duration` counts nanoseconds). -/
def Minute : Nat := 60 * 1000000000

/-- One `PresignGetObject` request made to the object store client. -/
structure PresignCall where
  bucket : String
  key : String
  expires : Nat
deriving DecidableEq, Repr

/-- What `PresignGetObject` answered: an error, a nil request, or a request with a URL. -/
inductive PresignReply where
  | failed
  | nilRequest
  | url (u : String)
deriving DecidableEq, Repr

/-- The `fmt.Errorf` values of `generatePresignedURL`. -/
inductive PresignError where
  | bucketOrKeyEmpty (bucket key : String)
  | failedToPresign
  | optionsOrURLNil
deriving DecidableEq, Repr

/-- The `fmt.Errorf` values of `dbVideoToSignedVideo`. -/
inductive SignError where
  | videoURLNil
  | invalidVideoURLFormat (url : String)
  | emptyBucketOrKey (bucket key : String)
  | failedToGenerate (inner : PresignError)
  | generatedURLEmpty
deriving DecidableEq, Repr

/-- The errors that reject the stored reference itself, before any signing. -/
def SignError.isInvalidReference : SignError → Bool
  | SignError.videoURLNil => true
  | SignError.invalidVideoURLFormat _ => true
  | SignError.emptyBucketOrKey _ _ => true
  | _ => false

/-- Go `generatePresignedURL`; the second component lists the requests it made. -/
def generatePresignedURL (store : PresignCall → PresignReply) (bucket key : String)
    (expireTime : Nat) : Except PresignError String × List PresignCall :=
  if bucket = "" ∨ key = "" then
    (Except.error (PresignError.bucketOrKeyEmpty bucket key), [])
  else
    let call : PresignCall := ⟨bucket, key, expireTime⟩
    match store call with
    | PresignReply.failed => (Except.error PresignError.failedToPresign, [call])
    | PresignReply.nilRequest => (Except.error PresignError.optionsOrURLNil, [call])
    | PresignReply.url u =>
      if u = "" then (Except.error PresignError.optionsOrURLNil, [call])
      else (Except.ok u, [call])

/-- The two return values of `dbVideoToSignedVideo` and the requests made meanwhile. -/
structure SignResult where
  video : Video
  err : Option SignError
  calls : List PresignCall
deriving DecidableEq, Repr

/-- Go `dbVideoToSignedVideo`. -/
def dbVideoToSignedVideo (store : PresignCall → PresignReply) (video : Video) : SignResult :=
  let signedVideo := video
  match video.VideoURL with
  | none => ⟨signedVideo, some SignError.videoURLNil, []⟩
  | some videoURL =>
    match Split videoURL ',' with
    | [p0, p1] =>
      let bucket := TrimSpace p0
      let key := TrimSpace p1
      if bucket = "" ∨ key = "" then
        ⟨signedVideo, some (SignError.emptyBucketOrKey bucket key), []⟩
      else
        match generatePresignedURL store bucket key (15 * Minute) with
        | (Except.error e, calls) => ⟨signedVideo, some (SignError.failedToGenerate e), calls⟩
        | (Except.ok signedURL, calls) =>
          if signedURL = "" then ⟨signedVideo, some SignError.generatedURLEmpty, calls⟩
          else ⟨{ signedVideo with VideoURL := some signedURL }, none, calls⟩
    | _ => ⟨signedVideo, some (SignError.invalidVideoURLFormat videoURL), []⟩

/-! ## Upload handler (`handler_upload_video.go`) -/

/-- The fields of `apiConfig` read by `handlerUploadVideo`. -/
structure Config where
  s3Bucket : String
  s3CfDistribution : String
deriving DecidableEq, Repr

/-- A request body as a reader: its length and the byte limit set on it, if any. -/
structure Body where
  size : Nat
  limit : Option Nat
deriving DecidableEq, Repr

/-- Go `http.MaxBytesReader`: a NEW reader over the same bytes that fails once more
than `n` bytes are read.  The reader passed in is left as it was. -/
def MaxBytesReader (b : Body) (n : Nat) : Body :=
  { b with limit := some n }

/-- Reading a body to its end: the number of bytes read, or the limit error. -/
def Body.readAll (b : Body) : Option Nat :=
  match b.limit with
  | some n => if b.size > n then none else some b.size
  | none => some b.size

/-- The file and header that `r.FormFile("video")` returns. -/
structure FormPart where
  size : Nat
  contentType : String
deriving DecidableEq, Repr

/-- Go `r.FormFile`: reads the whole of `body` and returns the named part. -/
def FormFile (body : Body) (form : Option FormPart) : Option FormPart :=
  match body.readAll with
  | none => none
  | some _ => form

/-- How the `ffmpeg` subprocess ended. -/
inductive FfmpegExit where
  | ok
  | failedNoOutput
  | failedPartialOutput
deriving DecidableEq, Repr

/-- Whether the subprocess left a file at its output path. -/
def FfmpegExit.leavesOutput : FfmpegExit → Bool
  | FfmpegExit.ok => true
  | FfmpegExit.failedNoOutput => false
  | FfmpegExit.failedPartialOutput => true

/-- The request and the answers of everything outside the handler. -/
structure Env where
  cfg : Config
  body : Body
  videoID : Option String
  bearer : Option String
  validateJWT : String → Option String
  getVideo : String → Option Video
  form : Option FormPart
  parseMediaType : String → Option String
  createTemp : Option String
  copyOk : Bool
  ffmpeg : FfmpegExit
  openOk : Bool
  probe : ProbeOutput
  newUUID : String
  putOk : Bool
  updateOk : Bool

/-- The effects of a run, in the order they happen. -/
inductive Effect where
  | getVideo (id : String)
  | createTemp (name : Option String)
  | copy (dst : String) (bytes : Nat) (ok : Bool)
  | ffmpeg (input output : String) (ok : Bool)
  | openFile (path : String) (ok : Bool)
  | ffprobe (path : String) (ok : Bool)
  | putObject (bucket key : String) (ok : Bool)
  | updateVideo (v : Video) (ok : Bool)
  | remove (path : String)
deriving DecidableEq, Repr

/-- How the handler ended: a response was written, or it panicked. -/
inductive Outcome where
  | responded (status : Nat) (msg : String)
  | panicked
deriving DecidableEq, Repr

/-- A finished run: outcome, effects in order, temp files still on disk. -/
structure Run where
  outcome : Outcome
  trace : List Effect
  files : List String
deriving DecidableEq, Repr

/-- Go `respondWithError` followed by `return`. -/
def respondWithError (status : Nat) (msg : String) (trace : List Effect)
    (files : List String) : Run :=
  ⟨Outcome.responded status msg, trace, files⟩

/-- A deferred `os.Remove(path)` running when the enclosed statements return. -/
def deferRemove (path : String) (r : Run) : Run :=
  { r with trace := r.trace ++ [Effect.remove path], files := r.files.filter (fun f => f ≠ path) }

/-- Go `processVideoForFastStart`: the returned path or error, with the effect of
the subprocess on the trace and on the disk. -/
def processVideoForFastStart (ended : FfmpegExit) (filePath : String)
    (trace : List Effect) (files : List String) :
    Except Unit String × List Effect × List String :=
  let outputPath := filePath ++ ".tmp.mp4"
  let trace := trace ++ [Effect.ffmpeg filePath outputPath (decide (ended = FfmpegExit.ok))]
  let files := if ended.leavesOutput then files ++ [outputPath] else files
  match ended with
  | FfmpegExit.ok => (Except.ok outputPath, trace, files)
  | _ => (Except.error (), trace, files)

/-- Lines 151-207 of `handlerUploadVideo`: what runs under `defer os.Remove(processedPath)`. -/
def afterTranscode (env : Env) (dbVideo : Video) (processedPath : String)
    (trace : List Effect) (files : List String) : Run :=
  let trace := trace ++ [Effect.openFile processedPath env.openOk]
  if env.openOk = false then
    respondWithError 500 "Couldn't open processed video" trace files
  else
    match getVideoAspectRatio env.probe with
    | Except.error _ =>
      respondWithError 500 "Couldn't get video aspect ratio"
        (trace ++ [Effect.ffprobe processedPath false]) files
    | Except.ok aspectRatio =>
      let trace := trace ++ [Effect.ffprobe processedPath true]
      let s3key := s3keyOf aspectRatio env.newUUID
      let trace := trace ++ [Effect.putObject env.cfg.s3Bucket s3key env.putOk]
      if env.putOk = false then
        respondWithError 500 "Couldn't upload video" trace files
      else
        let videoURL := env.cfg.s3CfDistribution ++ ("/" ++ s3key)
        let dbVideo := { dbVideo with VideoURL := some videoURL }
        let trace := trace ++ [Effect.updateVideo dbVideo env.updateOk]
        if env.updateOk = false then
          respondWithError 500 "Couldn't update video" trace files
        else
          ⟨Outcome.responded 200 "", trace, files⟩

/-- Lines 136-149 of `handlerUploadVideo`: what runs under `defer os.Remove(tmpl.Name())`. -/
def afterCreateTemp (env : Env) (dbVideo : Video) (part : FormPart) (name : String)
    (trace : List Effect) (files : List String) : Run :=
  let trace := trace ++ [Effect.copy name part.size env.copyOk]
  if env.copyOk = false then
    respondWithError 500 "Couldn't get video" trace files
  else
    match processVideoForFastStart env.ffmpeg name trace files with
    | (Except.error _, trace, files) =>
      respondWithError 500 "Couldn't process video" trace files
    | (Except.ok processedPath, trace, files) =>
      deferRemove processedPath (afterTranscode env dbVideo processedPath trace files)

/-- Go `handlerUploadVideo`.  The reader returned by `http.MaxBytesReader` on line 78
is not used by the source, and is not used here.  When `os.CreateTemp` fails, line 127
calls `tmpl.Name()` on the nil file before the error is checked, which panics. -/
def handlerUploadVideo (env : Env) : Run :=
  let _limited := MaxBytesReader env.body (1 <<< 30)
  match env.videoID with
  | none => respondWithError 400 "Invalid ID" [] []
  | some videoID =>
    match env.bearer with
    | none => respondWithError 401 "Couldn't find JWT" [] []
    | some token =>
      match env.validateJWT token with
      | none => respondWithError 401 "Couldn't validate JWT" [] []
      | some userId =>
        let trace := [Effect.getVideo videoID]
        match env.getVideo videoID with
        | none => respondWithError 500 "Couldn't get video" trace []
        | some dbVideo =>
          if dbVideo.UserID ≠ userId then
            respondWithError 401 "Not authorized" trace []
          else
            match FormFile env.body env.form with
            | none => respondWithError 500 "Couldn't get video" trace []
            | some part =>
              if env.parseMediaType part.contentType ≠ some "video/mp4" then
                respondWithError 415 "Unsupported media type" trace []
              else
                match env.createTemp with
                | none => ⟨Outcome.panicked, trace ++ [Effect.createTemp none], []⟩
                | some name =>
                  deferRemove name
                    (afterCreateTemp env dbVideo part name
                      (trace ++ [Effect.createTemp (some name)]) [name])

/-- Position of an effect in the pipeline (stage, transcode, probe, PUT, update);
reads of the record store and the deferred removals have none. -/
def Effect.rank : Effect → Option Nat
  | Effect.getVideo _ => none
  | Effect.createTemp _ => some 0
  | Effect.copy _ _ _ => some 1
  | Effect.ffmpeg _ _ _ => some 2
  | Effect.openFile _ _ => some 3
  | Effect.ffprobe _ _ => some 4
  | Effect.putObject _ _ _ => some 5
  | Effect.updateVideo _ _ => some 6
  | Effect.remove _ => none

/-- Whether the effect succeeded. -/
def Effect.ok : Effect → Bool
  | Effect.getVideo _ => true
  | Effect.createTemp name => name.isSome
  | Effect.copy _ _ ok => ok
  | Effect.ffmpeg _ _ ok => ok
  | Effect.openFile _ ok => ok
  | Effect.ffprobe _ ok => ok
  | Effect.putObject _ _ ok => ok
  | Effect.updateVideo _ ok => ok
  | Effect.remove _ => true

/-- The pipeline effects of a run, in order. -/
def Run.pipeline (r : Run) : List Effect :=
  r.trace.filter (fun e => e.rank.isSome)

/-- The HTTP status written, if any. -/
def Outcome.status : Outcome → Option Nat
  | Outcome.responded status _ => some status
  | Outcome.panicked => none

/-- An upload by the owner `alice` of record `v1` in which every external step
succeeds, the probe reporting `width` x `height` and the fresh identifier being `id`. -/
def uploadEnv (width height : ℚ) (id : String) : Env where
  cfg := ⟨"tubely-bucket", "https://d111.cloudfront.net"⟩
  body := ⟨4096, none⟩
  videoID := some "v1"
  bearer := some "tok"
  validateJWT := fun _ => some "alice"
  getVideo := fun v => some ⟨v, "alice", none, none⟩
  form := some ⟨4000, "video/mp4"⟩
  parseMediaType := fun ct => some ct
  createTemp := some "/tmp/tubely-mms.mp4123"
  copyOk := true
  ffmpeg := FfmpegExit.ok
  openOk := true
  probe := probeOf width height
  newUUID := id
  putOk := true
  updateOk := true

/-- The same upload with a credential that validates to another identity. -/
def notOwnerEnv : Env :=
  { uploadEnv 1920 1080 "0b5e" with validateJWT := fun _ => some "mallory" }

/-- The same upload without a bearer credential. -/
def noTokenEnv : Env :=
  { uploadEnv 1920 1080 "0b5e" with bearer := none }

/-- The same upload with a body larger than `1 << 30` bytes. -/
def oversizeEnv : Env :=
  { uploadEnv 1920 1080 "0b5e" with
    body := ⟨2 ^ 30 + 4096, none⟩, form := some ⟨2 ^ 30 + 1, "video/mp4"⟩ }

/-- The same upload with `ffmpeg` exiting non-zero after it created its output file. -/
def transcodeFailEnv : Env :=
  { uploadEnv 1920 1080 "0b5e" with ffmpeg := FfmpegExit.failedPartialOutput }

/-! ## Path-by-path description of a run -/

/-- The request names a record, carries a valid credential, and the credential's
identity owns the record. -/
def Authorized (env : Env) (videoID : String) (dbVideo : Video) : Prop :=
  ∃ token, env.videoID = some videoID ∧ env.bearer = some token
    ∧ env.validateJWT token = some dbVideo.UserID ∧ env.getVideo videoID = some dbVideo

/-- The request is authorized and its `video` part is declared `video/mp4`. -/
def Admitted (env : Env) (videoID : String) (dbVideo : Video) (part : FormPart) : Prop :=
  Authorized env videoID dbVideo ∧ FormFile env.body env.form = some part
    ∧ env.parseMediaType part.contentType = some "video/mp4"

/-- The record as the handler passes it to `UpdateVideo`. -/
def updatedVideo (env : Env) (dbVideo : Video) (aspectRatio : String) : Video :=
  { dbVideo with
    VideoURL := some (env.cfg.s3CfDistribution ++ ("/" ++ s3keyOf aspectRatio env.newUUID)) }

/-- The exit paths of `handlerUploadVideo`: the conditions under which each is
taken and the run it produces. -/
inductive Runs (env : Env) : Run → Prop
  | invalidID (h1 : env.videoID = none) :
    Runs env ⟨Outcome.responded 400 "Invalid ID", [], []⟩
  | noJWT (videoID : String) (h1 : env.videoID = some videoID) (h2 : env.bearer = none) :
    Runs env ⟨Outcome.responded 401 "Couldn't find JWT", [], []⟩
  | badJWT (videoID token : String) (h1 : env.videoID = some videoID)
      (h2 : env.bearer = some token) (h3 : env.validateJWT token = none) :
    Runs env ⟨Outcome.responded 401 "Couldn't validate JWT", [], []⟩
  | noRecord (videoID token userId : String) (h1 : env.videoID = some videoID)
      (h2 : env.bearer = some token) (h3 : env.validateJWT token = some userId)
      (h4 : env.getVideo videoID = none) :
    Runs env ⟨Outcome.responded 500 "Couldn't get video", [Effect.getVideo videoID], []⟩
  | notOwner (videoID token userId : String) (dbVideo : Video)
      (h1 : env.videoID = some videoID) (h2 : env.bearer = some token)
      (h3 : env.validateJWT token = some userId) (h4 : env.getVideo videoID = some dbVideo)
      (h5 : dbVideo.UserID ≠ userId) :
    Runs env ⟨Outcome.responded 401 "Not authorized", [Effect.getVideo videoID], []⟩
  | noForm (videoID : String) (dbVideo : Video) (ha : Authorized env videoID dbVideo)
      (h6 : FormFile env.body env.form = none) :
    Runs env ⟨Outcome.responded 500 "Couldn't get video", [Effect.getVideo videoID], []⟩
  | badMediaType (videoID : String) (dbVideo : Video) (part : FormPart)
      (ha : Authorized env videoID dbVideo) (h6 : FormFile env.body env.form = some part)
      (h7 : env.parseMediaType part.contentType ≠ some "video/mp4") :
    Runs env ⟨Outcome.responded 415 "Unsupported media type", [Effect.getVideo videoID], []⟩
  | createTempFailed (videoID : String) (dbVideo : Video) (part : FormPart)
      (ha : Admitted env videoID dbVideo part) (h8 : env.createTemp = none) :
    Runs env ⟨Outcome.panicked, [Effect.getVideo videoID, Effect.createTemp none], []⟩
  | copyFailed (videoID : String) (dbVideo : Video) (part : FormPart) (name : String)
      (ha : Admitted env videoID dbVideo part) (h8 : env.createTemp = some name)
      (h9 : env.copyOk = false) :
    Runs env ⟨Outcome.responded 500 "Couldn't get video",
      [Effect.getVideo videoID, Effect.createTemp (some name),
        Effect.copy name part.size false, Effect.remove name], []⟩
  | transcodeFailed (videoID : String) (dbVideo : Video) (part : FormPart) (name : String)
      (ha : Admitted env videoID dbVideo part) (h8 : env.createTemp = some name)
      (h9 : env.copyOk = true) (h10 : env.ffmpeg ≠ FfmpegExit.ok) :
    Runs env ⟨Outcome.responded 500 "Couldn't process video",
      [Effect.getVideo videoID, Effect.createTemp (some name),
        Effect.copy name part.size true, Effect.ffmpeg name (name ++ ".tmp.mp4") false,
        Effect.remove name],
      if env.ffmpeg.leavesOutput then [name ++ ".tmp.mp4"] else []⟩
  | openFailed (videoID : String) (dbVideo : Video) (part : FormPart) (name : String)
      (ha : Admitted env videoID dbVideo part) (h8 : env.createTemp = some name)
      (h9 : env.copyOk = true) (h10 : env.ffmpeg = FfmpegExit.ok)
      (h11 : env.openOk = false) :
    Runs env ⟨Outcome.responded 500 "Couldn't open processed video",
      [Effect.getVideo videoID, Effect.createTemp (some name),
        Effect.copy name part.size true, Effect.ffmpeg name (name ++ ".tmp.mp4") true,
        Effect.openFile (name ++ ".tmp.mp4") false,
        Effect.remove (name ++ ".tmp.mp4"), Effect.remove name], []⟩
  | probeFailed (videoID : String) (dbVideo : Video) (part : FormPart) (name : String)
      (e : ProbeError)
      (ha : Admitted env videoID dbVideo part) (h8 : env.createTemp = some name)
      (h9 : env.copyOk = true) (h10 : env.ffmpeg = FfmpegExit.ok)
      (h11 : env.openOk = true) (h12 : getVideoAspectRatio env.probe = Except.error e) :
    Runs env ⟨Outcome.responded 500 "Couldn't get video aspect ratio",
      [Effect.getVideo videoID, Effect.createTemp (some name),
        Effect.copy name part.size true, Effect.ffmpeg name (name ++ ".tmp.mp4") true,
        Effect.openFile (name ++ ".tmp.mp4") true, Effect.ffprobe (name ++ ".tmp.mp4") false,
        Effect.remove (name ++ ".tmp.mp4"), Effect.remove name], []⟩
  | putFailed (videoID : String) (dbVideo : Video) (part : FormPart) (name : String)
      (aspectRatio : String)
      (ha : Admitted env videoID dbVideo part) (h8 : env.createTemp = some name)
      (h9 : env.copyOk = true) (h10 : env.ffmpeg = FfmpegExit.ok)
      (h11 : env.openOk = true)
      (h12 : getVideoAspectRatio env.probe = Except.ok aspectRatio)
      (h13 : env.putOk = false) :
    Runs env ⟨Outcome.responded 500 "Couldn't upload video",
      [Effect.getVideo videoID, Effect.createTemp (some name),
        Effect.copy name part.size true, Effect.ffmpeg name (name ++ ".tmp.mp4") true,
        Effect.openFile (name ++ ".tmp.mp4") true, Effect.ffprobe (name ++ ".tmp.mp4") true,
        Effect.putObject env.cfg.s3Bucket (s3keyOf aspectRatio env.newUUID) false,
        Effect.remove (name ++ ".tmp.mp4"), Effect.remove name], []⟩
  | updateFailed (videoID : String) (dbVideo : Video) (part : FormPart) (name : String)
      (aspectRatio : String)
      (ha : Admitted env videoID dbVideo part) (h8 : env.createTemp = some name)
      (h9 : env.copyOk = true) (h10 : env.ffmpeg = FfmpegExit.ok)
      (h11 : env.openOk = true)
      (h12 : getVideoAspectRatio env.probe = Except.ok aspectRatio)
      (h13 : env.putOk = true) (h14 : env.updateOk = false) :
    Runs env ⟨Outcome.responded 500 "Couldn't update video",
      [Effect.getVideo videoID, Effect.createTemp (some name),
        Effect.copy name part.size true, Effect.ffmpeg name (name ++ ".tmp.mp4") true,
        Effect.openFile (name ++ ".tmp.mp4") true, Effect.ffprobe (name ++ ".tmp.mp4") true,
        Effect.putObject env.cfg.s3Bucket (s3keyOf aspectRatio env.newUUID) true,
        Effect.updateVideo (updatedVideo env dbVideo aspectRatio) false,
        Effect.remove (name ++ ".tmp.mp4"), Effect.remove name], []⟩
  | success (videoID : String) (dbVideo : Video) (part : FormPart) (name : String)
      (aspectRatio : String)
      (ha : Admitted env videoID dbVideo part) (h8 : env.createTemp = some name)
      (h9 : env.copyOk = true) (h10 : env.ffmpeg = FfmpegExit.ok)
      (h11 : env.openOk = true)
      (h12 : getVideoAspectRatio env.probe = Except.ok aspectRatio)
      (h13 : env.putOk = true) (h14 : env.updateOk = true) :
    Runs env ⟨Outcome.responded 200 "",
      [Effect.getVideo videoID, Effect.createTemp (some name),
        Effect.copy name part.size true, Effect.ffmpeg name (name ++ ".tmp.mp4") true,
        Effect.openFile (name ++ ".tmp.mp4") true, Effect.ffprobe (name ++ ".tmp.mp4") true,
        Effect.putObject env.cfg.s3Bucket (s3keyOf aspectRatio env.newUUID) true,
        Effect.updateVideo (updatedVideo env dbVideo aspectRatio) true,
        Effect.remove (name ++ ".tmp.mp4"), Effect.remove name], []⟩

/-! ## Rounding lemmas -/

theorem roundHalfEven_err (m : ℚ) : |(roundHalfEven m : ℚ) - m| ≤ 1 / 2 := by
  have h1 := Int.floor_le m
  have h2 := Int.lt_floor_add_one m
  unfold roundHalfEven
  simp only []
  rw [abs_le]
  split_ifs with a b c
  · constructor <;> linarith
  · push_cast
    constructor <;> linarith
  · constructor <;> linarith
  · push_cast
    constructor <;> linarith

theorem roundHalfEven_eq (m : ℚ) (n : ℤ) (h : |m - n| < 1 / 2) : roundHalfEven m = n := by
  rw [abs_lt] at h
  obtain ⟨h1, h2⟩ := h
  unfold roundHalfEven
  simp only []
  by_cases hm : (n : ℚ) ≤ m
  · have hf : ⌊m⌋ = n := by
      rw [Int.floor_eq_iff]
      constructor <;> linarith
    rw [hf, if_pos (by linarith)]
  · push_neg at hm
    have hf : ⌊m⌋ = n - 1 := by
      rw [Int.floor_eq_iff]
      push_cast
      constructor <;> linarith
    rw [hf]
    push_cast
    rw [if_neg (by linarith), if_pos (by linarith)]
    ring

theorem two_zpow_max_le (a : ℚ) (ha : 0 < a) :
    (2 : ℚ) ^ (max (Int.log 2 a) (-1022)) ≤ a + 1 := by
  rcases le_total (Int.log 2 a) (-1022) with h | h
  · rw [max_eq_right h]
    have : (2 : ℚ) ^ (-1022 : ℤ) ≤ 1 := by
      apply zpow_le_one_of_nonpos₀ <;> norm_num
    linarith
  · rw [max_eq_left h]
    have := Int.zpow_log_le_self (b := 2) (r := a) (by norm_num) ha
    push_cast at this
    linarith

theorem F64.round_spec (q : ℚ) :
    (∃ y, F64.round q = F64.fin y ∧ |y - q| ≤ (|q| + 1) / 2 ^ 53)
      ∨ (∃ b, F64.round q = F64.inf b ∧ 4 ≤ |q|) := by
  by_cases hq : q = 0
  · left
    refine ⟨0, by simp [F64.round, hq], ?_⟩
    subst hq
    norm_num
  · have ha : 0 < |q| := abs_pos.mpr hq
    have hulp : (0 : ℚ) < 2 ^ (max (Int.log 2 |q|) (-1022) - 52) := by positivity
    have hn := roundHalfEven_err (|q| / 2 ^ (max (Int.log 2 |q|) (-1022) - 52))
    have he := two_zpow_max_le |q| ha
    have hsplit : (2 : ℚ) ^ (max (Int.log 2 |q|) (-1022) - 52)
        = 2 ^ (max (Int.log 2 |q|) (-1022)) / 2 ^ 52 := by
      rw [zpow_sub₀ (by norm_num : (2 : ℚ) ≠ 0)]
      norm_num
    generalize hU : (2 : ℚ) ^ (max (Int.log 2 |q|) (-1022) - 52) = ulp at hulp hn hsplit
    generalize hN : roundHalfEven (|q| / ulp) = n at hn
    have hr : |(n : ℚ) * ulp - (|q|)| ≤ (|q| + 1) / 2 ^ 53 := by
      have e1 : (n : ℚ) * ulp - |q| = ((n : ℚ) - |q| / ulp) * ulp := by
        field_simp
      rw [e1, abs_mul, abs_of_pos hulp]
      have : |(n : ℚ) - |q| / ulp| * ulp ≤ 1 / 2 * ulp :=
        mul_le_mul_of_nonneg_right hn hulp.le
      have h2 : ulp ≤ (|q| + 1) / 2 ^ 52 := by
        rw [hsplit]
        apply div_le_div_of_nonneg_right he
        positivity
      have h3 : (1 : ℚ) / 2 * ((|q| + 1) / 2 ^ 52) = (|q| + 1) / 2 ^ 53 := by ring
      linarith
    have hround : F64.round q
        = if (2 : ℚ) ^ (1024 : ℕ) ≤ (n : ℚ) * ulp then F64.inf (decide (q < 0))
          else F64.fin (if q < 0 then -((n : ℚ) * ulp) else (n : ℚ) * ulp) := by
      simp only [F64.round, hq, if_false, hU, hN]
    rw [hround]
    rw [abs_le] at hr
    by_cases hov : (2 : ℚ) ^ (1024 : ℕ) ≤ (n : ℚ) * ulp
    · right
      rw [if_pos hov]
      refine ⟨_, rfl, ?_⟩
      by_contra hlt
      push_neg at hlt
      have h5 : (5 : ℚ) < 2 ^ (1024 : ℕ) := by norm_num
      have h6 : (|q| + 1) / 2 ^ 53 ≤ 1 := by
        rw [div_le_one (by positivity)]
        have : (5 : ℚ) ≤ 2 ^ 53 := by norm_num
        linarith
      linarith [hr.2]
    · left
      rw [if_neg hov]
      refine ⟨_, rfl, ?_⟩
      by_cases hneg : q < 0
      · rw [if_pos hneg]
        rw [abs_of_neg hneg] at hr ⊢
        rw [abs_le]
        constructor <;> linarith [hr.1, hr.2]
      · rw [if_neg hneg]
        push_neg at hneg
        rw [abs_of_nonneg hneg] at hr ⊢
        rw [abs_le]
        constructor <;> linarith [hr.1, hr.2]

theorem F64.round_eq (q : ℚ) (e n : ℤ) (hq : 0 < q) (he : -1022 ≤ e) (he2 : e ≤ 1)
    (hlo : (2 : ℚ) ^ e ≤ q) (hhi : q < (2 : ℚ) ^ (e + 1))
    (hn : |q / 2 ^ (e - 52) - n| < 1 / 2) :
    F64.round q = F64.fin (n * 2 ^ (e - 52)) := by
  have hlog : Int.log 2 q = e := by
    have h1 : e ≤ Int.log 2 q :=
      (Int.zpow_le_iff_le_log (b := 2) (by norm_num) hq).mp (by exact_mod_cast hlo)
    have h2 : Int.log 2 q < e + 1 :=
      (Int.lt_zpow_iff_log_lt (b := 2) (by norm_num) hq).mp (by exact_mod_cast hhi)
    omega
  have hulp : (0 : ℚ) < 2 ^ (e - 52) := by positivity
  have hulp1 : (2 : ℚ) ^ (e - 52) ≤ 1 := by
    apply zpow_le_one_of_nonpos₀ (by norm_num)
    omega
  have h4 : (2 : ℚ) ^ (e + 1) ≤ 4 := by
    have := zpow_le_zpow_right₀ (a := (2 : ℚ)) (by norm_num) (show e + 1 ≤ 2 by omega)
    norm_num at this
    exact this
  have hrhe := roundHalfEven_eq _ n hn
  have hsmall : (n : ℚ) * 2 ^ (e - 52) < 2 ^ (1024 : ℕ) := by
    rw [abs_lt] at hn
    have h5 : (n : ℚ) < q / 2 ^ (e - 52) + 1 / 2 := by linarith [hn.1]
    have h6 : (n : ℚ) * 2 ^ (e - 52) < (q / 2 ^ (e - 52) + 1 / 2) * 2 ^ (e - 52) :=
      mul_lt_mul_of_pos_right h5 hulp
    have h7 : (q / 2 ^ (e - 52) + 1 / 2) * (2 : ℚ) ^ (e - 52) = q + 1 / 2 * 2 ^ (e - 52) := by
      field_simp
      ring
    have h8 : (5 : ℚ) < 2 ^ (1024 : ℕ) := by norm_num
    linarith
  have hq0 : q ≠ 0 := ne_of_gt hq
  have hnn : ¬ q < 0 := not_lt.mpr hq.le
  simp only [F64.round, hq0, if_false, abs_of_pos hq, hlog, max_eq_left he, hrhe,
    not_le.mpr hsmall, hnn]

theorem tolerance_test_true (x c : ℚ) (hc0 : 0 ≤ c) (hc2 : c ≤ 2)
    (h : |x - c| < 1 / 10 - 1 / 2 ^ 49) :
    (((F64.round x).sub (F64.round c)).abs).lt (F64.round (1 / 10)) = true := by
  rw [abs_lt] at h
  have hxabs : |x| ≤ 3 := by
    rw [abs_le]
    constructor <;> linarith
  have hcabs : |c| = c := abs_of_nonneg hc0
  have htabs : |(1 / 10 : ℚ)| = 1 / 10 := abs_of_pos (by norm_num)
  rcases F64.round_spec x with ⟨y, hy, hye⟩ | ⟨b, _, hb4⟩
  swap
  · linarith
  rcases F64.round_spec c with ⟨cf, hcf, hcfe⟩ | ⟨b, _, hb4⟩
  swap
  · linarith
  rcases F64.round_spec (1 / 10) with ⟨tf, htf, htfe⟩ | ⟨b, _, hb4⟩
  swap
  · rw [htabs] at hb4
    norm_num at hb4
  rw [hcabs] at hcfe
  rw [htabs] at htfe
  rw [abs_le] at hye hcfe htfe
  have hye1 : (|x| + 1) / 2 ^ 53 ≤ 4 / 2 ^ 53 := by
    apply div_le_div_of_nonneg_right _ (by positivity)
    linarith
  have hce1 : (c + 1) / 2 ^ 53 ≤ 3 / 2 ^ 53 := by
    apply div_le_div_of_nonneg_right _ (by positivity)
    linarith
  have hz : |y - cf| ≤ 1 := by
    rw [abs_le]
    constructor <;> linarith [hye.1, hye.2, hcfe.1, hcfe.2]
  rcases F64.round_spec (y - cf) with ⟨d, hd, hde⟩ | ⟨b, _, hb4⟩
  swap
  · linarith
  have hde1 : (|y - cf| + 1) / 2 ^ 53 ≤ 2 / 2 ^ 53 := by
    apply div_le_div_of_nonneg_right _ (by positivity)
    linarith
  rw [abs_le] at hde
  have hfinal : |d| < tf := by
    rw [abs_lt]
    constructor <;> linarith [hye.1, hye.2, hcfe.1, hcfe.2, hde.1, hde.2, htfe.1, htfe.2]
  rw [hy, hcf, htf]
  simp only [F64.sub, hd, F64.abs, F64.lt, hfinal, decide_True]

theorem tolerance_test_false (x c : ℚ) (hc0 : 0 ≤ c) (hc2 : c ≤ 2)
    (h : 1 / 10 + 1 / 2 ^ 49 < |x - c|) :
    (((F64.round x).sub (F64.round c)).abs).lt (F64.round (1 / 10)) = false := by
  have hcabs : |c| = c := abs_of_nonneg hc0
  have htabs : |(1 / 10 : ℚ)| = 1 / 10 := abs_of_pos (by norm_num)
  rcases F64.round_spec c with ⟨cf, hcf, hcfe⟩ | ⟨b, _, hb4⟩
  swap
  · linarith
  rcases F64.round_spec (1 / 10) with ⟨tf, htf, htfe⟩ | ⟨b, _, hb4⟩
  swap
  · rw [htabs] at hb4
    norm_num at hb4
  rw [hcabs] at hcfe
  rw [htabs] at htfe
  rw [abs_le] at hcfe htfe
  have hce1 : (c + 1) / 2 ^ 53 ≤ 3 / 2 ^ 53 := by
    apply div_le_div_of_nonneg_right _ (by positivity)
    linarith
  rw [hcf, htf]
  rcases F64.round_spec x with ⟨y, hy, hye⟩ | ⟨b, hb, _⟩
  swap
  · rw [hb]
    simp [F64.sub, F64.abs, F64.lt]
  rw [hy]
  rcases F64.round_spec (y - cf) with ⟨d, hd, hde⟩ | ⟨b, hb, _⟩
  swap
  · simp [F64.sub, hb, F64.abs, F64.lt]
  rw [abs_le] at hye hde
  have hfinal : ¬ |d| < tf := by
    rw [not_lt]
    rcases lt_abs.mp h with hpos | hneg
    · have hx0 : 0 ≤ x := by linarith
      rw [abs_of_nonneg hx0] at hye
      have hzpos : 0 ≤ y - cf := by linarith [hye.1, hcfe.2]
      rw [abs_of_nonneg hzpos] at hde
      have hd1 : tf ≤ d := by linarith [hye.1, hcfe.2, hde.1, htfe.2]
      exact le_trans hd1 (le_abs_self d)
    · rcases le_or_lt 0 x with hx0 | hx0
      · rw [abs_of_nonneg hx0] at hye
        have hzneg : y - cf ≤ 0 := by linarith [hye.2, hcfe.1]
        rw [abs_of_nonpos hzneg] at hde
        have hd1 : tf ≤ -d := by linarith [hye.2, hcfe.1, hde.2, htfe.2]
        exact le_trans hd1 (neg_le_abs d)
      · rw [abs_of_neg hx0] at hye
        have hzneg : y - cf ≤ 0 := by linarith [hye.2, hcfe.1]
        rw [abs_of_nonpos hzneg] at hde
        have hd1 : tf ≤ -d := by linarith [hye.2, hcfe.1, hde.2, htfe.2]
        exact le_trans hd1 (neg_le_abs d)
  simp only [F64.sub, hd, F64.abs, F64.lt, hfinal, decide_False]

theorem lt_abs_sub_inf (b : Bool) (X Y : F64) :
    (((F64.inf b).sub X).abs).lt Y = false := by
  cases X with
  | fin a => cases Y <;> simp [F64.sub, F64.abs, F64.lt]
  | inf n2 =>
    by_cases hb : b = n2
    · cases Y <;> simp [F64.sub, hb, F64.abs, F64.lt]
    · cases Y <;> simp [F64.sub, hb, F64.abs, F64.lt]
  | nan => cases Y <;> simp [F64.sub, F64.abs, F64.lt]

theorem lt_abs_sub_nan (X Y : F64) : ((F64.nan.sub X).abs).lt Y = false := by
  cases X <;> cases Y <;> simp [F64.sub, F64.abs, F64.lt]

/-! ## Classifier lemmas -/

theorem classifyDimensions_zero_height (width : ℚ) :
    classifyDimensions width 0 = "other" := by
  by_cases hw : width = 0 <;>
    simp [classifyDimensions, F64.quot, hw, lt_abs_sub_inf, lt_abs_sub_nan]

theorem classifyDimensionsSwapped_zero_height (width : ℚ) :
    classifyDimensionsSwapped width 0 = "other" := by
  by_cases hw : width = 0 <;>
    simp [classifyDimensionsSwapped, F64.quot, hw, lt_abs_sub_inf, lt_abs_sub_nan]

theorem classifyDimensions_landscape (width height : ℚ) (hh : height ≠ 0)
    (h1 : |width / height - 16 / 9| < 1 / 10 - 1 / 2 ^ 49) :
    classifyDimensions width height = "16:9" := by
  have t1 := tolerance_test_true (width / height) (16 / 9) (by norm_num) (by norm_num) h1
  simp only [classifyDimensions, F64.quot, hh, if_false, tolerance, t1, if_true]

theorem classifyDimensions_portrait (width height : ℚ) (hh : height ≠ 0)
    (h1 : 1 / 10 + 1 / 2 ^ 49 < |width / height - 16 / 9|)
    (h2 : |width / height - 9 / 16| < 1 / 10 - 1 / 2 ^ 49) :
    classifyDimensions width height = "9:16" := by
  have t1 := tolerance_test_false (width / height) (16 / 9) (by norm_num) (by norm_num) h1
  have t2 := tolerance_test_true (width / height) (9 / 16) (by norm_num) (by norm_num) h2
  simp only [classifyDimensions, F64.quot, hh, if_false, tolerance, t1, t2,
    Bool.false_eq_true, if_true]

theorem classifyDimensions_other (width height : ℚ) (hh : height ≠ 0)
    (h1 : 1 / 10 + 1 / 2 ^ 49 < |width / height - 16 / 9|)
    (h2 : 1 / 10 + 1 / 2 ^ 49 < |width / height - 9 / 16|) :
    classifyDimensions width height = "other" := by
  have t1 := tolerance_test_false (width / height) (16 / 9) (by norm_num) (by norm_num) h1
  have t2 := tolerance_test_false (width / height) (9 / 16) (by norm_num) (by norm_num) h2
  simp only [classifyDimensions, F64.quot, hh, if_false, tolerance, t1, t2,
    Bool.false_eq_true]

theorem classifyDimensions_values (width height : ℚ) :
    classifyDimensions width height = "16:9" ∨ classifyDimensions width height = "9:16"
      ∨ classifyDimensions width height = "other" := by
  unfold classifyDimensions
  simp only []
  split
  · exact Or.inl rfl
  · split
    · exact Or.inr (Or.inl rfl)
    · exact Or.inr (Or.inr rfl)

theorem tolerance_tests_exclusive (x : ℚ) :
    ¬ ((((F64.round x).sub (F64.round (16 / 9))).abs).lt (F64.round (1 / 10)) = true
      ∧ (((F64.round x).sub (F64.round (9 / 16))).abs).lt (F64.round (1 / 10)) = true) := by
  rintro ⟨t1, t2⟩
  have h1 : |x - 16 / 9| ≤ 1 / 10 + 1 / 2 ^ 49 := by
    by_contra hc
    have := tolerance_test_false x (16 / 9) (by norm_num) (by norm_num) (not_le.mp hc)
    rw [this] at t1
    cases t1
  have h2 : |x - 9 / 16| ≤ 1 / 10 + 1 / 2 ^ 49 := by
    by_contra hc
    have := tolerance_test_false x (9 / 16) (by norm_num) (by norm_num) (not_le.mp hc)
    rw [this] at t2
    cases t2
  rw [abs_le] at h1 h2
  linarith [h1.1, h2.2]

theorem getVideoAspectRatio_probeOf (width height : ℚ) :
    getVideoAspectRatio (probeOf width height)
      = Except.ok (classifyDimensions width height) := by
  simp [getVideoAspectRatio, probeOf, JSON.index, List.lookup, JSON.asArr, JSON.asObj,
    JSON.asFloat]

theorem windows_disjoint (r : ℚ) :
    ¬ (|r - 16 / 9| < tolerance ∧ |r - 9 / 16| < tolerance) := by
  rintro ⟨h1, h2⟩
  rw [tolerance, abs_lt] at h1 h2
  linarith [h1.1, h2.2]

theorem classifyDimensions_1920_1080 : classifyDimensions 1920 1080 = "16:9" :=
  classifyDimensions_landscape 1920 1080 (by norm_num) (by norm_num [abs_lt])

theorem classifyDimensions_720_1280 : classifyDimensions 720 1280 = "9:16" :=
  classifyDimensions_portrait 720 1280 (by norm_num) (by norm_num [lt_abs])
    (by norm_num [abs_lt])

theorem classifyDimensions_1000_900 : classifyDimensions 1000 900 = "other" :=
  classifyDimensions_other 1000 900 (by norm_num) (by norm_num [lt_abs])
    (by norm_num [lt_abs])

theorem round_53_80 : F64.round (53 / 80) = F64.fin (5967269506265907 / 2 ^ 53) := by
  have h := F64.round_eq (53 / 80) (-1) 5967269506265907 (by norm_num) (by norm_num)
    (by norm_num) (by norm_num) (by norm_num) (by norm_num [abs_lt])
  rw [h]
  norm_num

theorem round_9_16 : F64.round (9 / 16) = F64.fin (9 / 16) := by
  have h := F64.round_eq (9 / 16) (-1) 5066549580791808 (by norm_num) (by norm_num)
    (by norm_num) (by norm_num) (by norm_num) (by norm_num [abs_lt])
  rw [h]
  norm_num

theorem round_tolerance : F64.round tolerance = F64.fin (7205759403792794 / 2 ^ 56) := by
  have h := F64.round_eq (1 / 10) (-4) 7205759403792794 (by norm_num) (by norm_num)
    (by norm_num) (by norm_num) (by norm_num) (by norm_num [abs_lt])
  rw [tolerance, h]
  norm_num

theorem round_diff_53_80 :
    F64.round (5967269506265907 / 2 ^ 53 - 9 / 16) = F64.fin (7205759403792792 / 2 ^ 56) := by
  have h := F64.round_eq (5967269506265907 / 2 ^ 53 - 9 / 16) (-4) 7205759403792792
    (by norm_num) (by norm_num) (by norm_num) (by norm_num) (by norm_num)
    (by norm_num [abs_lt])
  rw [h]
  norm_num

theorem classifyDimensions_53_80 : classifyDimensions 53 80 = "9:16" := by
  have h1 := tolerance_test_false (53 / 80) (16 / 9) (by norm_num) (by norm_num)
    (by norm_num [abs_lt, lt_abs])
  have h2 : (((F64.round (53 / 80)).sub (F64.round (9 / 16))).abs).lt (F64.round tolerance)
      = true := by
    rw [round_53_80, round_9_16, round_tolerance]
    simp only [F64.sub, round_diff_53_80, F64.abs, F64.lt]
    norm_num [abs_lt]
  have hq : F64.quot 53 80 = F64.round (53 / 80) := by
    simp [F64.quot]
  simp only [classifyDimensions, hq, tolerance] at h1 h2 ⊢
  rw [h1, h2]
  simp

theorem classifierSpec_53_80 : classifierSpec 53 80 = "other" := by
  simp [classifierSpec]
  norm_num [abs_lt]

/-! ## Handler lemmas -/

theorem tmp_ne_self (name : String) : name ++ ".tmp.mp4" ≠ name := by
  intro h
  have hl := congrArg String.length h
  rw [String.length_append] at hl
  have : (".tmp.mp4" : String).length = 8 := by decide
  omega

theorem handlerUploadVideo_runs (env : Env) : Runs env (handlerUploadVideo env) := by
  rcases h1 : env.videoID with _ | videoID
  · simpa [handlerUploadVideo, h1, respondWithError] using Runs.invalidID h1
  rcases h2 : env.bearer with _ | token
  · simpa [handlerUploadVideo, h1, h2, respondWithError] using Runs.noJWT videoID h1 h2
  rcases h3 : env.validateJWT token with _ | userId
  · simpa [handlerUploadVideo, h1, h2, h3, respondWithError]
      using Runs.badJWT videoID token h1 h2 h3
  rcases h4 : env.getVideo videoID with _ | dbVideo
  · simpa [handlerUploadVideo, h1, h2, h3, h4, respondWithError]
      using Runs.noRecord videoID token userId h1 h2 h3 h4
  by_cases h5 : dbVideo.UserID = userId
  swap
  · simpa [handlerUploadVideo, h1, h2, h3, h4, h5, respondWithError]
      using Runs.notOwner videoID token userId dbVideo h1 h2 h3 h4 h5
  have hauth : Authorized env videoID dbVideo := ⟨token, h1, h2, h5 ▸ h3, h4⟩
  rcases h6 : FormFile env.body env.form with _ | part
  · simpa [handlerUploadVideo, h1, h2, h3, h4, h5, h6, respondWithError]
      using Runs.noForm videoID dbVideo hauth h6
  by_cases h7 : env.parseMediaType part.contentType = some "video/mp4"
  swap
  · simpa [handlerUploadVideo, h1, h2, h3, h4, h5, h6, h7, respondWithError]
      using Runs.badMediaType videoID dbVideo part hauth h6 h7
  have hadm : Admitted env videoID dbVideo part := ⟨hauth, h6, h7⟩
  rcases h8 : env.createTemp with _ | name
  · simpa [handlerUploadVideo, h1, h2, h3, h4, h5, h6, h7, h8]
      using Runs.createTempFailed videoID dbVideo part hadm h8
  have hne := tmp_ne_self name
  have hne2 : name ≠ name ++ ".tmp.mp4" := fun h => hne h.symm
  have hstart : handlerUploadVideo env = deferRemove name
      (afterCreateTemp env dbVideo part name
        [Effect.getVideo videoID, Effect.createTemp (some name)] [name]) := by
    simp [handlerUploadVideo, h1, h2, h3, h4, h5, h6, h7, h8]
  rw [hstart]
  rcases h9 : env.copyOk with _ | _
  · simpa [afterCreateTemp, deferRemove, h9, respondWithError]
      using Runs.copyFailed videoID dbVideo part name hadm h8 h9
  by_cases h10 : env.ffmpeg = FfmpegExit.ok
  swap
  · have hr := Runs.transcodeFailed videoID dbVideo part name hadm h8 h9 h10
    rcases hf : env.ffmpeg with _ | _ | _
    · exact absurd hf h10
    · simpa [afterCreateTemp, deferRemove, processVideoForFastStart, h9, hf,
        FfmpegExit.leavesOutput, respondWithError] using hr
    · simpa [afterCreateTemp, deferRemove, processVideoForFastStart, h9, hf,
        FfmpegExit.leavesOutput, respondWithError, hne] using hr
  rcases h11 : env.openOk with _ | _
  · simpa [afterCreateTemp, afterTranscode, deferRemove, processVideoForFastStart, h9, h10,
      h11, FfmpegExit.leavesOutput, respondWithError, hne, hne2]
      using Runs.openFailed videoID dbVideo part name hadm h8 h9 h10 h11
  rcases h12 : getVideoAspectRatio env.probe with e | aspectRatio
  · simpa [afterCreateTemp, afterTranscode, deferRemove, processVideoForFastStart, h9, h10,
      h11, h12, FfmpegExit.leavesOutput, respondWithError, hne, hne2]
      using Runs.probeFailed videoID dbVideo part name e hadm h8 h9 h10 h11 h12
  rcases h13 : env.putOk with _ | _
  · simpa [afterCreateTemp, afterTranscode, deferRemove, processVideoForFastStart, h9, h10,
      h11, h12, h13, FfmpegExit.leavesOutput, respondWithError, hne, hne2]
      using Runs.putFailed videoID dbVideo part name aspectRatio hadm h8 h9 h10 h11 h12 h13
  rcases h14 : env.updateOk with _ | _
  · simpa [afterCreateTemp, afterTranscode, deferRemove, processVideoForFastStart, h9, h10,
      h11, h12, h13, h14, FfmpegExit.leavesOutput, respondWithError, hne, hne2, updatedVideo]
      using Runs.updateFailed videoID dbVideo part name aspectRatio hadm h8 h9 h10 h11 h12
        h13 h14
  · simpa [afterCreateTemp, afterTranscode, deferRemove, processVideoForFastStart, h9, h10,
      h11, h12, h13, h14, FfmpegExit.leavesOutput, respondWithError, hne, hne2, updatedVideo]
      using Runs.success videoID dbVideo part name aspectRatio hadm h8 h9 h10 h11 h12
        h13 h14

theorem handlerUploadVideo_uploadEnv (width height : ℚ) (id : String) :
    handlerUploadVideo (uploadEnv width height id) =
      ⟨Outcome.responded 200 "",
        [Effect.getVideo "v1", Effect.createTemp (some "/tmp/tubely-mms.mp4123"),
          Effect.copy "/tmp/tubely-mms.mp4123" 4000 true,
          Effect.ffmpeg "/tmp/tubely-mms.mp4123" "/tmp/tubely-mms.mp4123.tmp.mp4" true,
          Effect.openFile "/tmp/tubely-mms.mp4123.tmp.mp4" true,
          Effect.ffprobe "/tmp/tubely-mms.mp4123.tmp.mp4" true,
          Effect.putObject "tubely-bucket" (s3keyOf (classifyDimensions width height) id) true,
          Effect.updateVideo ⟨"v1", "alice", none,
            some ("https://d111.cloudfront.net"
              ++ ("/" ++ s3keyOf (classifyDimensions width height) id))⟩ true,
          Effect.remove "/tmp/tubely-mms.mp4123.tmp.mp4",
          Effect.remove "/tmp/tubely-mms.mp4123"], []⟩ := by
  simp [handlerUploadVideo, uploadEnv, FormFile, Body.readAll, afterCreateTemp,
    afterTranscode, deferRemove, processVideoForFastStart, FfmpegExit.leavesOutput,
    getVideoAspectRatio_probeOf]

/-! ## Claims about the classifier and the key -/

/-- C3 (as stated, refuted): with probed dimensions 1920 x 0 the classification step
returns the value "other" and no error. -/
theorem C3_zero_height_returns_other :
    getVideoAspectRatio (probeOf 1920 0) = Except.ok "other"
      ∧ ¬ ∃ e, getVideoAspectRatio (probeOf 1920 0) = Except.error e := by
  have h : getVideoAspectRatio (probeOf 1920 0) = Except.ok "other" := by
    rw [getVideoAspectRatio_probeOf, classifyDimensions_zero_height]
  refine ⟨h, ?_⟩
  rintro ⟨e, he⟩
  rw [h] at he
  cases he

/-- C3 (amended): for every probed width and a probed height equal to 0, the
classification step of getVideoAspectRatio returns "other" without an error. -/
theorem C3_zero_height_classified_other (width : ℚ) :
    classifyDimensions width 0 = "other"
      ∧ getVideoAspectRatio (probeOf width 0) = Except.ok "other" := by
  refine ⟨classifyDimensions_zero_height width, ?_⟩
  rw [getVideoAspectRatio_probeOf, classifyDimensions_zero_height]

/-- C4 (as stated, refuted): at 53 x 80 the exact ratio is at distance 1/10 from
9/16, so the reference definition gives "other", while the float64 computation of
getVideoAspectRatio gives "9:16". -/
theorem C4_boundary_53_80_is_portrait :
    (0 : ℚ) < 53 ∧ (0 : ℚ) < 80
      ∧ getVideoAspectRatio (probeOf 53 80) = Except.ok "9:16"
      ∧ classifyDimensions 53 80 = "9:16"
      ∧ classifierSpec 53 80 = "other"
      ∧ classifyDimensions 53 80 ≠ classifierSpec 53 80 := by
  refine ⟨by norm_num, by norm_num, ?_, classifyDimensions_53_80, classifierSpec_53_80, ?_⟩
  · rw [getVideoAspectRatio_probeOf, classifyDimensions_53_80]
  · rw [classifyDimensions_53_80, classifierSpec_53_80]
    decide

/-- C4 (amended): for width > 0 and height > 0 the classification computed by
getVideoAspectRatio in float64 arithmetic is one of "16:9", "9:16", "other", the
16/9 check taking precedence; it is "16:9" when |width/height - 16/9| is below
1/10 - 2^-49, otherwise "9:16" when |width/height - 9/16| is, and "other" when
both distances exceed 1/10 + 2^-49; so it equals the reference definition on the
exact ratio whenever neither distance is within 2^-49 of 1/10. -/
theorem C4_classification_off_boundary (width height : ℚ) (_hw : 0 < width)
    (hh : 0 < height) :
    getVideoAspectRatio (probeOf width height)
        = Except.ok (classifyDimensions width height)
      ∧ (classifyDimensions width height = "16:9" ∨ classifyDimensions width height = "9:16"
          ∨ classifyDimensions width height = "other")
      ∧ (|width / height - 16 / 9| < 1 / 10 - 1 / 2 ^ 49 →
          classifyDimensions width height = "16:9")
      ∧ (1 / 10 + 1 / 2 ^ 49 < |width / height - 16 / 9| →
          |width / height - 9 / 16| < 1 / 10 - 1 / 2 ^ 49 →
          classifyDimensions width height = "9:16")
      ∧ (1 / 10 + 1 / 2 ^ 49 < |width / height - 16 / 9| →
          1 / 10 + 1 / 2 ^ 49 < |width / height - 9 / 16| →
          classifyDimensions width height = "other")
      ∧ (¬ (1 / 10 - 1 / 2 ^ 49 ≤ |width / height - 16 / 9|
            ∧ |width / height - 16 / 9| ≤ 1 / 10 + 1 / 2 ^ 49) →
          ¬ (1 / 10 - 1 / 2 ^ 49 ≤ |width / height - 9 / 16|
            ∧ |width / height - 9 / 16| ≤ 1 / 10 + 1 / 2 ^ 49) →
          classifyDimensions width height = classifierSpec width height) := by
  have hne : height ≠ 0 := ne_of_gt hh
  refine ⟨getVideoAspectRatio_probeOf width height, classifyDimensions_values width height,
    classifyDimensions_landscape width height hne,
    classifyDimensions_portrait width height hne,
    classifyDimensions_other width height hne, ?_⟩
  intro hb1 hb2
  have heps : (0 : ℚ) < 1 / 2 ^ 49 := by positivity
  by_cases h1 : |width / height - 16 / 9| < 1 / 10
  · have h1s : |width / height - 16 / 9| < 1 / 10 - 1 / 2 ^ 49 := by
      by_contra hc
      exact hb1 ⟨not_lt.mp hc, by linarith⟩
    rw [classifyDimensions_landscape width height hne h1s, classifierSpec, if_pos h1]
  · have h1f : 1 / 10 + 1 / 2 ^ 49 < |width / height - 16 / 9| := by
      by_contra hc
      exact hb1 ⟨by linarith [not_lt.mp h1], not_lt.mp hc⟩
    by_cases h2 : |width / height - 9 / 16| < 1 / 10
    · have h2s : |width / height - 9 / 16| < 1 / 10 - 1 / 2 ^ 49 := by
        by_contra hc
        exact hb2 ⟨not_lt.mp hc, by linarith⟩
      rw [classifyDimensions_portrait width height hne h1f h2s, classifierSpec, if_neg h1,
        if_pos h2]
    · have h2f : 1 / 10 + 1 / 2 ^ 49 < |width / height - 9 / 16| := by
        by_contra hc
        exact hb2 ⟨by linarith [not_lt.mp h2], not_lt.mp hc⟩
      rw [classifyDimensions_other width height hne h1f h2f, classifierSpec, if_neg h1,
        if_neg h2]

/-- Witness of C4 (amended) at 720 x 1280. -/
theorem C4_classification_off_boundary_witness :
    (0 : ℚ) < 720 ∧ (0 : ℚ) < 1280
      ∧ getVideoAspectRatio (probeOf 720 1280) = Except.ok (classifyDimensions 720 1280)
      ∧ classifyDimensions 720 1280 = classifierSpec 720 1280 :=
  ⟨by norm_num, by norm_num,
    (C4_classification_off_boundary 720 1280 (by norm_num) (by norm_num)).1,
    (C4_classification_off_boundary 720 1280 (by norm_num) (by norm_num)).2.2.2.2.2
      (by norm_num [abs_le, le_abs]) (by norm_num [abs_le, le_abs])⟩

/-- C5: for probed dimensions with height > 0 and a fresh identifier id, the key
that handlerUploadVideo uploads under is the folder of the classification that
getVideoAspectRatio returned ("landscape/" for "16:9", "portrait/" for "9:16",
"other/" for anything else) followed by id and ".mp4"; 1920x1080, 720x1280 and
1000x900 give landscape, portrait and other. -/
theorem C5_key_of_classification (width height : ℚ) (id : String) (_hh : 0 < height) :
    s3keyOf (classifyDimensions width height) id
        = (if classifyDimensions width height = "16:9" then "landscape/"
            else if classifyDimensions width height = "9:16" then "portrait/"
            else "other/") ++ id ++ ".mp4"
      ∧ Effect.putObject "tubely-bucket" (s3keyOf (classifyDimensions width height) id) true
          ∈ (handlerUploadVideo (uploadEnv width height id)).trace
      ∧ (∀ env bucket key ok,
          Effect.putObject bucket key ok ∈ (handlerUploadVideo env).trace →
          ∃ aspectRatio, getVideoAspectRatio env.probe = Except.ok aspectRatio
            ∧ key = keyPrefixOf aspectRatio ++ env.newUUID ++ ".mp4")
      ∧ keyPrefixOf "16:9" = "landscape/"
      ∧ keyPrefixOf "9:16" = "portrait/"
      ∧ (∀ aspectRatio, aspectRatio ≠ "16:9" → aspectRatio ≠ "9:16" →
          keyPrefixOf aspectRatio = "other/")
      ∧ s3keyOf (classifyDimensions 1920 1080) id = "landscape/" ++ id ++ ".mp4"
      ∧ s3keyOf (classifyDimensions 720 1280) id = "portrait/" ++ id ++ ".mp4"
      ∧ s3keyOf (classifyDimensions 1000 900) id = "other/" ++ id ++ ".mp4" := by
  refine ⟨?_, ?_, ?_, ?_, ?_, ?_, ?_, ?_, ?_⟩
  · rw [s3keyOf, keyPrefixOf, String.append_assoc]
  · rw [handlerUploadVideo_uploadEnv]
    simp
  · intro env bucket key ok hmem
    have hr := handlerUploadVideo_runs env
    generalize handlerUploadVideo env = r at hr hmem
    cases hr <;> simp at hmem
    all_goals
      refine ⟨_, ‹getVideoAspectRatio env.probe = Except.ok _›, ?_⟩
      rw [hmem.2.1, s3keyOf, String.append_assoc]
  · decide
  · decide
  · intro aspectRatio h1 h2
    rw [keyPrefixOf, if_neg h1, if_neg h2]
  · rw [classifyDimensions_1920_1080, s3keyOf, String.append_assoc]
    rfl
  · rw [classifyDimensions_720_1280, s3keyOf, String.append_assoc]
    rfl
  · rw [classifyDimensions_1000_900, s3keyOf, String.append_assoc]
    rfl

/-- Witness of C5 at 1920 x 1080 with identifier "0b5e". -/
theorem C5_key_of_classification_witness :
    (0 : ℚ) < 1080
      ∧ Effect.putObject "tubely-bucket" (s3keyOf (classifyDimensions 1920 1080) "0b5e") true
          ∈ (handlerUploadVideo (uploadEnv 1920 1080 "0b5e")).trace :=
  ⟨by norm_num, (C5_key_of_classification 1920 1080 "0b5e" (by norm_num)).2.1⟩

/-- C10: the two tolerance windows of getVideoAspectRatio are disjoint, so testing
9/16 before 16/9 classifies every input the same way. -/
theorem C10_windows_disjoint (r : ℚ) :
    ¬ (|r - 16 / 9| < tolerance ∧ |r - 9 / 16| < tolerance)
      ∧ ∀ width height : ℚ,
          classifyDimensionsSwapped width height = classifyDimensions width height := by
  refine ⟨windows_disjoint r, ?_⟩
  intro width height
  by_cases hh : height = 0
  · subst hh
    rw [classifyDimensions_zero_height, classifyDimensionsSwapped_zero_height]
  · have hd := tolerance_tests_exclusive (width / height)
    simp only [classifyDimensions, classifyDimensionsSwapped, F64.quot, hh, if_false,
      tolerance]
    rcases h1 : (((F64.round (width / height)).sub (F64.round (16 / 9))).abs).lt
        (F64.round (1 / 10)) with _ | _
    · rcases h2 : (((F64.round (width / height)).sub (F64.round (9 / 16))).abs).lt
          (F64.round (1 / 10)) with _ | _
      · simp only [Bool.false_eq_true, if_false]
      · simp only [Bool.false_eq_true, if_false, if_true]
    · rcases h2 : (((F64.round (width / height)).sub (F64.round (9 / 16))).abs).lt
          (F64.round (1 / 10)) with _ | _
      · simp only [Bool.false_eq_true, if_false, if_true]
      · exact absurd ⟨h1, h2⟩ hd

/-! ## Claims about the handler -/

theorem distribution_url_ne_bucket_key (cf bucket key : String) :
    cf ++ ("/" ++ key) ≠ bucket ++ "," ++ key := by
  intro h
  have hd := congrArg String.data h
  simp only [String.data_append] at hd
  have h1 : cf.data ++ ['/'] ++ key.data = bucket.data ++ [','] ++ key.data := by
    simpa using hd
  have h2 := List.append_cancel_right h1
  have h3 := congrArg List.getLast? h2
  simp at h3

/-- C1 (the code departs from it): on the successful upload of a 1920x1080 file with
bucket "tubely-bucket" the handler stores the distribution URL followed by "/" and
the key, never "bucket,key", and dbVideoToSignedVideo rejects the stored string. -/
theorem C1_stored_reference_is_not_bucket_key :
    Effect.putObject "tubely-bucket" "landscape/0b5e.mp4" true
        ∈ (handlerUploadVideo (uploadEnv 1920 1080 "0b5e")).trace
      ∧ Effect.updateVideo
          ⟨"v1", "alice", none, some "https://d111.cloudfront.net/landscape/0b5e.mp4"⟩ true
        ∈ (handlerUploadVideo (uploadEnv 1920 1080 "0b5e")).trace
      ∧ (handlerUploadVideo (uploadEnv 1920 1080 "0b5e")).outcome = Outcome.responded 200 ""
      ∧ (∀ store, dbVideoToSignedVideo store
            ⟨"v1", "alice", none, some "https://d111.cloudfront.net/landscape/0b5e.mp4"⟩
          = ⟨⟨"v1", "alice", none, some "https://d111.cloudfront.net/landscape/0b5e.mp4"⟩,
              some (SignError.invalidVideoURLFormat
                "https://d111.cloudfront.net/landscape/0b5e.mp4"), []⟩)
      ∧ (∀ env v ok, Effect.updateVideo v ok ∈ (handlerUploadVideo env).trace →
          ∃ key, Effect.putObject env.cfg.s3Bucket key true ∈ (handlerUploadVideo env).trace
            ∧ v.VideoURL = some (env.cfg.s3CfDistribution ++ ("/" ++ key))
            ∧ v.VideoURL ≠ some (env.cfg.s3Bucket ++ "," ++ key)) := by
  refine ⟨?_, ?_, ?_, ?_, ?_⟩
  · rw [handlerUploadVideo_uploadEnv, classifyDimensions_1920_1080]
    simp [s3keyOf, keyPrefixOf]
  · rw [handlerUploadVideo_uploadEnv, classifyDimensions_1920_1080]
    simp [s3keyOf, keyPrefixOf]
  · rw [handlerUploadVideo_uploadEnv]
  · intro store
    have hs : Split "https://d111.cloudfront.net/landscape/0b5e.mp4" ','
        = ["https://d111.cloudfront.net/landscape/0b5e.mp4"] := by decide
    simp [dbVideoToSignedVideo, hs]
  · intro env v ok hmem
    have hr := handlerUploadVideo_runs env
    generalize handlerUploadVideo env = r at hr hmem
    cases hr <;> simp at hmem
    all_goals
      rename_i aspectRatio _ _ _ _ _ _ _ _
      refine ⟨s3keyOf aspectRatio env.newUUID, by simp, ?_, ?_⟩
      · rw [hmem.1, updatedVideo]
      · rw [hmem.1, updatedVideo]
        simpa using distribution_url_ne_bucket_key _ _ _

/-- C6 (as stated, refuted): a request whose credential validates to an identity
other than the owner is answered 401, the status also given for a missing
credential, and not 403. -/
theorem C6_not_owner_gets_unauthorized :
    (handlerUploadVideo notOwnerEnv).outcome = Outcome.responded 401 "Not authorized"
      ∧ (handlerUploadVideo noTokenEnv).outcome = Outcome.responded 401 "Couldn't find JWT"
      ∧ (handlerUploadVideo notOwnerEnv).outcome.status
          = (handlerUploadVideo noTokenEnv).outcome.status
      ∧ (handlerUploadVideo notOwnerEnv).outcome.status ≠ some 403 := by
  have h1 : (handlerUploadVideo notOwnerEnv).outcome
      = Outcome.responded 401 "Not authorized" := by
    simp [handlerUploadVideo, notOwnerEnv, uploadEnv, respondWithError]
  have h2 : (handlerUploadVideo noTokenEnv).outcome
      = Outcome.responded 401 "Couldn't find JWT" := by
    simp [handlerUploadVideo, noTokenEnv, uploadEnv, respondWithError]
  refine ⟨h1, h2, ?_, ?_⟩
  · rw [h1, h2]
    rfl
  · rw [h1]
    simp [Outcome.status]

/-- C6 (amended): when the authenticated identity differs from the record's owner,
handlerUploadVideo answers 401 "Not authorized" (the status it also gives for a
missing or invalid credential) and its only effect is the read of the record: no
file is staged, no subprocess runs, the object store is not called and the record
is not updated. -/
theorem C6_not_owner_no_effects (env : Env) (videoID token userId : String)
    (dbVideo : Video) (h1 : env.videoID = some videoID) (h2 : env.bearer = some token)
    (h3 : env.validateJWT token = some userId) (h4 : env.getVideo videoID = some dbVideo)
    (h5 : dbVideo.UserID ≠ userId) :
    handlerUploadVideo env
        = ⟨Outcome.responded 401 "Not authorized", [Effect.getVideo videoID], []⟩
      ∧ (handlerUploadVideo env).pipeline = []
      ∧ (∀ env2 : Env, env2.videoID ≠ none →
          (env2.bearer = none ∨ ∃ t, env2.bearer = some t ∧ env2.validateJWT t = none) →
          (handlerUploadVideo env2).outcome.status = some 401) := by
  have e : handlerUploadVideo env
      = ⟨Outcome.responded 401 "Not authorized", [Effect.getVideo videoID], []⟩ := by
    simp [handlerUploadVideo, h1, h2, h3, h4, h5, respondWithError]
  refine ⟨e, ?_, ?_⟩
  · rw [e]
    simp [Run.pipeline, Effect.rank]
  · intro env2 hv hc
    rcases hv2 : env2.videoID with _ | vid
    · exact absurd hv2 hv
    rcases hc with hb | ⟨t, hb, hj⟩
    · simp [handlerUploadVideo, hv2, hb, respondWithError, Outcome.status]
    · simp [handlerUploadVideo, hv2, hb, hj, respondWithError, Outcome.status]

/-- Witness of C6 (amended) at a request by "mallory" for a record of "alice". -/
theorem C6_not_owner_no_effects_witness :
    handlerUploadVideo notOwnerEnv
      = ⟨Outcome.responded 401 "Not authorized", [Effect.getVideo "v1"], []⟩ :=
  (C6_not_owner_no_effects notOwnerEnv "v1" "tok" "mallory" ⟨"v1", "alice", none, none⟩
    rfl rfl rfl rfl (by decide)).1

/-- C7 (the code departs from it): a request whose body exceeds 1<<30 bytes is read
through the unlimited body, its 2^30+1 byte part is copied to the staged file and
the run answers 200; the limited reader, which would have failed, is never read. -/
theorem C7_oversize_body_is_staged :
    oversizeEnv.body.size > 1 <<< 30
      ∧ FormFile (MaxBytesReader oversizeEnv.body (1 <<< 30)) oversizeEnv.form = none
      ∧ Effect.copy "/tmp/tubely-mms.mp4123" (2 ^ 30 + 1) true
          ∈ (handlerUploadVideo oversizeEnv).trace
      ∧ (handlerUploadVideo oversizeEnv).outcome = Outcome.responded 200 ""
      ∧ (∀ env, (handlerUploadVideo env).outcome.status ≠ some 413) := by
  refine ⟨?_, ?_, ?_, ?_, ?_⟩
  · simp [oversizeEnv]
  · simp [oversizeEnv, FormFile, MaxBytesReader, Body.readAll]
  · simp [handlerUploadVideo, oversizeEnv, uploadEnv, FormFile, Body.readAll,
      afterCreateTemp, afterTranscode, deferRemove, processVideoForFastStart,
      FfmpegExit.leavesOutput, getVideoAspectRatio_probeOf]
  · simp [handlerUploadVideo, oversizeEnv, uploadEnv, FormFile, Body.readAll,
      afterCreateTemp, afterTranscode, deferRemove, processVideoForFastStart,
      FfmpegExit.leavesOutput, getVideoAspectRatio_probeOf]
  · intro env
    have hr := handlerUploadVideo_runs env
    generalize handlerUploadVideo env = r at hr
    cases hr <;> simp [Outcome.status]

/-- C9 (the code departs from it): when ffmpeg exits non-zero after creating its
output file, the handler returns with the file staged-name ++ ".tmp.mp4" still on
disk; on every other exit path no temp file of the run is left. -/
theorem C9_transcode_failure_leaves_output :
    handlerUploadVideo transcodeFailEnv
        = ⟨Outcome.responded 500 "Couldn't process video",
            [Effect.getVideo "v1", Effect.createTemp (some "/tmp/tubely-mms.mp4123"),
              Effect.copy "/tmp/tubely-mms.mp4123" 4000 true,
              Effect.ffmpeg "/tmp/tubely-mms.mp4123" "/tmp/tubely-mms.mp4123.tmp.mp4" false,
              Effect.remove "/tmp/tubely-mms.mp4123"],
            ["/tmp/tubely-mms.mp4123.tmp.mp4"]⟩
      ∧ (∀ env, env.ffmpeg ≠ FfmpegExit.failedPartialOutput →
          (handlerUploadVideo env).files = []) := by
  refine ⟨?_, ?_⟩
  · simp [handlerUploadVideo, transcodeFailEnv, uploadEnv, FormFile, Body.readAll,
      afterCreateTemp, deferRemove, processVideoForFastStart, FfmpegExit.leavesOutput,
      respondWithError]
  · intro env hne
    have hr := handlerUploadVideo_runs env
    generalize handlerUploadVideo env = r at hr
    cases hr <;> try rfl
    rename_i h10
    rcases hf : env.ffmpeg with _ | _ | _
    · exact absurd hf h10
    · simp [hf, FfmpegExit.leavesOutput]
    · exact absurd hf hne

theorem admitted_mediaType {env : Env} {videoID : String} {dbVideo : Video}
    {part0 part : FormPart} (ha : Admitted env videoID dbVideo part0)
    (hf : FormFile env.body env.form = some part) :
    env.parseMediaType part.contentType = some "video/mp4" := by
  obtain ⟨_, h6, h7⟩ := ha
  rw [h6] at hf
  cases hf
  exact h7

/-- C8: in every run the pipeline effects are an initial segment of createTemp,
copy, ffmpeg, open, ffprobe, PUT, update in that order, each present only when all
earlier ones succeeded and the request was admitted; a media type other than
video/mp4 gives 415 with no pipeline effect; a transcode failure gives no PUT; the
record update follows a successful PUT, is the last pipeline effect of a successful
run and does not succeed in a failed one. -/
theorem C8_effects_in_order (env : Env) :
    ((handlerUploadVideo env).pipeline.map Effect.rank
        = (List.range (handlerUploadVideo env).pipeline.length).map some)
      ∧ (∀ e ∈ (handlerUploadVideo env).pipeline.dropLast, e.ok = true)
      ∧ ((handlerUploadVideo env).pipeline ≠ [] →
          ∃ videoID dbVideo part, Admitted env videoID dbVideo part)
      ∧ (∀ part, FormFile env.body env.form = some part →
          env.parseMediaType part.contentType ≠ some "video/mp4" →
          (handlerUploadVideo env).pipeline = []
            ∧ ∀ videoID dbVideo, Authorized env videoID dbVideo →
                (handlerUploadVideo env).outcome
                  = Outcome.responded 415 "Unsupported media type")
      ∧ (env.ffmpeg ≠ FfmpegExit.ok →
          ∀ bucket key ok, Effect.putObject bucket key ok ∉ (handlerUploadVideo env).trace)
      ∧ (∀ v ok, Effect.updateVideo v ok ∈ (handlerUploadVideo env).trace →
          ∃ bucket key, Effect.putObject bucket key true ∈ (handlerUploadVideo env).trace)
      ∧ ((handlerUploadVideo env).outcome = Outcome.responded 200 "" →
          ∃ v, (handlerUploadVideo env).pipeline.getLast? = some (Effect.updateVideo v true))
      ∧ ((handlerUploadVideo env).outcome ≠ Outcome.responded 200 "" →
          ∀ v, Effect.updateVideo v true ∉ (handlerUploadVideo env).trace) := by
  have hr := handlerUploadVideo_runs env
  generalize handlerUploadVideo env = r at hr
  refine ⟨?_, ?_, ?_, ?_, ?_, ?_, ?_, ?_⟩
  · cases hr <;> simp [Run.pipeline, Effect.rank, List.range_succ]
  · cases hr <;> simp [Run.pipeline, Effect.rank, Effect.ok]
  · cases hr <;> simp [Run.pipeline, Effect.rank]
    all_goals exact ⟨_, _, _, ‹Admitted env _ _ _›⟩
  · intro part hf hm
    cases hr <;> simp [Run.pipeline, Effect.rank]
    all_goals first
      | exact absurd (admitted_mediaType ‹Admitted env _ _ _› hf) hm
      | (rintro vid dbv ⟨tok, a1, a2, a3, a4⟩
         simp_all)
  · intro hne
    cases hr <;> simp
    all_goals contradiction
  · intro v ok
    cases hr <;> simp
  · cases hr <;> simp [Run.pipeline, Effect.rank]
  · cases hr <;> simp

/-! ## Claims about the signing service -/

theorem splitChars_length (sep : Char) (l : List Char) :
    (splitChars sep l).length = l.count sep + 1 := by
  induction l with
  | nil => rfl
  | cons c cs ih =>
    by_cases h : c = sep
    · subst h
      simp [splitChars, ih]
    · have h2 : (c == sep) = false := by simpa using h
      rcases hs : splitChars sep cs with _ | ⟨q, qs⟩
      · rw [hs] at ih
        simp at ih
      · rw [hs] at ih
        simp [splitChars, h, hs, List.count_cons, h2] at ih ⊢
        omega

theorem generatePresignedURL_calls (store : PresignCall → PresignReply)
    (bucket key : String) (expireTime : Nat) (hb : bucket ≠ "") (hk : key ≠ "") :
    (generatePresignedURL store bucket key expireTime).2 = [⟨bucket, key, expireTime⟩] := by
  unfold generatePresignedURL
  rw [if_neg (by simp [hb, hk])]
  simp only []
  split
  · rfl
  · rfl
  · split <;> rfl

theorem dbVideoToSignedVideo_wellFormed (store : PresignCall → PresignReply)
    (video : Video) (s a b : String) (hv : video.VideoURL = some s)
    (hs : Split s ',' = [a, b]) (ha : TrimSpace a ≠ "") (hb : TrimSpace b ≠ "") :
    (dbVideoToSignedVideo store video).calls = [⟨TrimSpace a, TrimSpace b, 15 * Minute⟩] := by
  have hc := generatePresignedURL_calls store _ _ (15 * Minute) ha hb
  unfold dbVideoToSignedVideo
  simp only [hv, hs]
  rw [if_neg (by simp [ha, hb])]
  split
  · next e calls heq =>
    rw [heq] at hc
    exact hc
  · next u calls heq =>
    rw [heq] at hc
    split <;> exact hc

theorem dbVideoToSignedVideo_malformed (store : PresignCall → PresignReply)
    (video : Video)
    (h : ¬ ∃ s a b, video.VideoURL = some s ∧ Split s ',' = [a, b]
      ∧ TrimSpace a ≠ "" ∧ TrimSpace b ≠ "") :
    (dbVideoToSignedVideo store video).calls = []
      ∧ (dbVideoToSignedVideo store video).video = video
      ∧ ∃ e, (dbVideoToSignedVideo store video).err = some e
          ∧ e.isInvalidReference = true := by
  rcases hv : video.VideoURL with _ | s
  · simp [dbVideoToSignedVideo, hv, SignError.isInvalidReference]
  · rcases hs : Split s ',' with _ | ⟨a, _ | ⟨b, _ | ⟨c, rest⟩⟩⟩
    · simp [dbVideoToSignedVideo, hv, hs, SignError.isInvalidReference]
    · simp [dbVideoToSignedVideo, hv, hs, SignError.isInvalidReference]
    · by_cases hab : TrimSpace a = "" ∨ TrimSpace b = ""
      · simp [dbVideoToSignedVideo, hv, hs, hab, SignError.isInvalidReference]
      · exfalso
        apply h
        refine ⟨s, a, b, hv, hs, ?_, ?_⟩
        · exact fun h1 => hab (Or.inl h1)
        · exact fun h1 => hab (Or.inr h1)
    · simp [dbVideoToSignedVideo, hv, hs, SignError.isInvalidReference]

/-- C2: dbVideoToSignedVideo asks the object store for a signed URL exactly when the
stored reference splits on "," into two components that are both non-empty after
trimming; the request is then for the trimmed bucket and key with a 15 minute
expiry; otherwise (a nil VideoURL included) it fails with an invalid-reference
error and makes no request.  "my-bucket,  videos/abc.mp4 " signs for "my-bucket"
and "videos/abc.mp4"; "onlyonepart" fails. -/
theorem C2_signing_requests (store : PresignCall → PresignReply) (video : Video) :
    ((dbVideoToSignedVideo store video).calls ≠ [] ↔
        ∃ s a b, video.VideoURL = some s ∧ Split s ',' = [a, b]
          ∧ TrimSpace a ≠ "" ∧ TrimSpace b ≠ "")
      ∧ (∀ s a b, video.VideoURL = some s → Split s ',' = [a, b] →
          TrimSpace a ≠ "" → TrimSpace b ≠ "" →
          (dbVideoToSignedVideo store video).calls
            = [⟨TrimSpace a, TrimSpace b, 15 * Minute⟩])
      ∧ ((¬ ∃ s a b, video.VideoURL = some s ∧ Split s ',' = [a, b]
            ∧ TrimSpace a ≠ "" ∧ TrimSpace b ≠ "") →
          (dbVideoToSignedVideo store video).calls = []
            ∧ ∃ e, (dbVideoToSignedVideo store video).err = some e
                ∧ e.isInvalidReference = true)
      ∧ 15 * Minute = 15 * 60 * 10 ^ 9
      ∧ (dbVideoToSignedVideo store
            ⟨"v1", "alice", none, some "my-bucket,  videos/abc.mp4 "⟩).calls
          = [⟨"my-bucket", "videos/abc.mp4", 15 * Minute⟩]
      ∧ dbVideoToSignedVideo store ⟨"v1", "alice", none, some "onlyonepart"⟩
          = ⟨⟨"v1", "alice", none, some "onlyonepart"⟩,
              some (SignError.invalidVideoURLFormat "onlyonepart"), []⟩ := by
  refine ⟨⟨?_, ?_⟩, ?_, ?_, ?_, ?_, ?_⟩
  · intro hne
    by_contra hno
    exact hne (dbVideoToSignedVideo_malformed store video hno).1
  · rintro ⟨s, a, b, hv, hs, ha, hb⟩
    rw [dbVideoToSignedVideo_wellFormed store video s a b hv hs ha hb]
    simp
  · intro s a b hv hs ha hb
    exact dbVideoToSignedVideo_wellFormed store video s a b hv hs ha hb
  · intro hno
    have h := dbVideoToSignedVideo_malformed store video hno
    exact ⟨h.1, h.2.2⟩
  · decide
  · have hs : Split "my-bucket,  videos/abc.mp4 " ',' = ["my-bucket", "  videos/abc.mp4 "] := by
      decide
    have h1 : TrimSpace "my-bucket" = "my-bucket" := by decide
    have h2 : TrimSpace "  videos/abc.mp4 " = "videos/abc.mp4" := by decide
    have h := dbVideoToSignedVideo_wellFormed store
      ⟨"v1", "alice", none, some "my-bucket,  videos/abc.mp4 "⟩ _ _ _ rfl hs
      (by rw [h1]; decide) (by rw [h2]; decide)
    rw [h, h1, h2]
  · have hs : Split "onlyonepart" ',' = ["onlyonepart"] := by decide
    simp [dbVideoToSignedVideo, hs]

end Tubely
